import Mathlib

/-!
Shallow embedding of `gethigal/requestform.py` (class `RequestForm`) and
verification of the specification claims about it.

Modelling conventions:
  * Durations are rationals (`ℚ`); Python numbers appearing as timeouts are
    modelled exactly.
  * Blocking polls (`selenium.webdriver.support.ui.WebDriverWait(...).until`)
    are modelled as a bounded poll loop over a time-indexed predicate:
    step `k` stands for the `k`-th poll of the condition.  The poll budget is
    derived from `timeout / interval`; its exact size is irrelevant to the
    claims, only that it is a finite bound.
  * Python functions that can raise are modelled with an explicit
    `PyOutcome` (normal return of `None`, or a raised exception `PyExc`).
  * Calls to `astropy.log` are modelled as a list of emitted `LogMsg`s.
  * The browser DOM is an oracle (`Dom`) supplying the results of
    `find_element_by_id` / parent / child lookups; the filesystem is a list
    of path names, time-indexed where the code polls it.
-/

/-- Python exceptions that the embedded code can raise. -/
inductive PyExc where
  | keyError (key : String)
  | noSuchElement (eid : String)
  | timeoutExc
  | moveError (path : String)
deriving DecidableEq, Repr

/-- Either a normal Python return (of `None`) or a raised exception. -/
inductive PyOutcome where
  | ok
  | raised (e : PyExc)
deriving DecidableEq, Repr

/-- A message emitted through `astropy.log`. -/
inductive LogMsg where
  | info (msg : String)
  | warning (msg : String)
  | error (msg : String)
deriving DecidableEq, Repr

/-- Result of a `WebDriverWait(...).until(...)` poll: the step at which the
condition first held, or a timeout. -/
inductive WaitResult where
  | success (step : Nat)
  | timedOut
deriving DecidableEq, Repr

/-- Number of condition polls a `WebDriverWait(driver, timeout, interval)`
performs before giving up: one initial check plus one per elapsed interval
(a ceiling of `timeout / interval`, at least one check). -/
def pollSteps (timeout interval : ℚ) : Nat :=
  let q := timeout / interval
  (q.num.toNat + q.den - 1) / q.den + 1

/-- Bounded poll loop: check `pred` at successive steps, returning the first
step where it holds, or timing out when the poll budget is exhausted. -/
def waitFrom (pred : Nat → Bool) : Nat → Nat → WaitResult
  | 0, _ => WaitResult.timedOut
  | Nat.succ fuel, k =>
      if pred k then WaitResult.success k else waitFrom pred fuel (k + 1)

/-- Model of `WebDriverWait(self, timeout, interval).until(pred)`. -/
def webDriverWait (pred : Nat → Bool) (timeout interval : ℚ) : WaitResult :=
  waitFrom pred (pollSteps timeout interval) 0

/-- Model of `RequestForm._wait_quite_a_bit`: the Hubble time of a
`LambdaCDM(H0=70, Om0=0.3, Ode0=0.7)` cosmology converted to seconds,
i.e. `1 Mpc / (70 km/s)` with `1 Mpc = 3.0856775814913673e19 km`,
computed here with exact rationals instead of floats. -/
def wait_quite_a_bit : ℚ := 30856775814913673000 / 70

/-- Result of `_await_download_completion`: whether the poll branch was
entered, the emitted log messages, and the Python outcome. -/
structure AwaitRes where
  waited : Bool
  logs : List LogMsg
  outcome : PyOutcome
deriving DecidableEq, Repr

/-- Model of `RequestForm._await_download_completion(path, timeout=None)`.
`marker k` tells whether `os.path.exists(path + ".part")` holds at poll
step `k`; step `0` is the up-front existence check.  The source performs no
filesystem writes, only existence checks. -/
def await_download_completion (marker : Nat → Bool) (timeout : Option ℚ) : AwaitRes :=
  if marker 0 = false then
    AwaitRes.mk false [] PyOutcome.ok
  else
    let t := timeout.getD wait_quite_a_bit
    match webDriverWait (fun k => !marker k) t (1 / 2) with
    | WaitResult.success _ =>
        AwaitRes.mk true
          [LogMsg.info ".part file found, waiting for the download to finish..."]
          PyOutcome.ok
    | WaitResult.timedOut =>
        AwaitRes.mk true
          [LogMsg.info ".part file found, waiting for the download to finish..."]
          (PyOutcome.raised PyExc.timeoutExc)

/-- The partial-download marker sibling of a path: `path + ".part"`. -/
def partMarker (path : String) : String := path ++ ".part"

/-- `_await_download_completion` expressed against a time-indexed filesystem
view `fsAt` (the set of existing paths at poll step `k`). -/
def await_download_completion_fs (fsAt : Nat → List String) (path : String)
    (timeout : Option ℚ) : AwaitRes :=
  await_download_completion (fun k => decide (partMarker path ∈ fsAt k)) timeout

/-- Event trace of `_await_only_one_window`: the pre-poll sleep and the poll. -/
inductive SettleEvent where
  | sleep (secs : ℚ)
  | poll
deriving DecidableEq, Repr

/-- Model of `RequestForm._await_only_one_window(prewait=5, timeout=None)`:
sleep `prewait` seconds (skipped when falsy, i.e. zero), then poll
`not len(self.window_handles) > 1`.  `w k` is the number of open browser
windows at poll step `k`. -/
def await_only_one_window (prewait : ℚ) (timeout : Option ℚ) (w : Nat → Nat) :
    List SettleEvent × WaitResult :=
  let pre := if prewait = 0 then [] else [SettleEvent.sleep prewait]
  let t := timeout.getD wait_quite_a_bit
  (pre ++ [SettleEvent.poll], webDriverWait (fun k => !decide (w k > 1)) t (1 / 2))

/-- The result-page readiness predicate of `RequestForm.__init__`:
`lambda x: "HiGALSearch" in x.current_url`, over a time-indexed current URL. -/
def switched_gears (urlAt : Nat → String) (k : Nat) : Bool :=
  decide ("HiGALSearch".toList <:+: (urlAt k).toList)

/-- Model of the result-page wait `WebDriverWait(self, 60, 0.5).until(switched_gears)`
in `RequestForm.__init__`. -/
def await_results_page (urlAt : Nat → String) : WaitResult :=
  webDriverWait (switched_gears urlAt) 60 (1 / 2)

/-- In a successful poll, the predicate holds at the returned step. -/
theorem waitFrom_success_pred (pred : Nat → Bool) :
    ∀ (fuel k j : Nat), waitFrom pred fuel k = WaitResult.success j → pred j = true := by
  intro fuel
  induction fuel with
  | zero => intro k j h; simp [waitFrom] at h
  | succ n ih =>
      intro k j h
      by_cases hp : pred k = true
      · simp [waitFrom, hp] at h
        exact h ▸ hp
      · simp [waitFrom, hp] at h
        exact ih (k + 1) j h

/-- C3: if the `.part` sibling of a path does not exist at call time, the
completion detector returns immediately (`ready`, nothing logged, no poll
branch entered), and any number of repeated calls gives the same result. -/
theorem C3_completion_noop (fsAt : Nat → List String) (path : String) (n : Nat)
    (h : partMarker path ∉ fsAt 0) :
    await_download_completion_fs fsAt path none = AwaitRes.mk false [] PyOutcome.ok ∧
    (List.range n).map (fun _ => await_download_completion_fs fsAt path none) =
      List.replicate n (AwaitRes.mk false [] PyOutcome.ok) := by
  have h1 : await_download_completion_fs fsAt path none = AwaitRes.mk false [] PyOutcome.ok := by
    unfold await_download_completion_fs await_download_completion
    simp [h]
  refine ⟨h1, ?_⟩
  rw [h1]
  induction n with
  | zero => rfl
  | succ m ih =>
      simp only [List.range_succ, List.map_append, List.map_cons, List.map_nil, ih]
      rw [← List.replicate_succ', List.replicate_succ]

/-- Witness for C3 at a concrete empty filesystem and `n = 3`. -/
theorem C3_completion_noop_witness :
    await_download_completion_fs (fun _ => []) "map_354_blue.fits" none =
      AwaitRes.mk false [] PyOutcome.ok ∧
    (List.range 3).map (fun _ => await_download_completion_fs (fun _ => []) "map_354_blue.fits" none) =
      List.replicate 3 (AwaitRes.mk false [] PyOutcome.ok) :=
  C3_completion_noop (fun _ => []) "map_354_blue.fits" 3 (by simp)

/-- C6: every wait in the system is finitely bounded.  The unspecified-timeout
default is the concrete finite positive rational `wait_quite_a_bit`; both the
file-completion wait and the window-settle wait resolve a missing timeout to
it, and every poll (including the result-page wait, whose timeout is the
literal 60 seconds) terminates as either a success or a timeout. -/
theorem C6_finite_timeouts (pred marker : Nat → Bool) (w : Nat → Nat)
    (pw t i : ℚ) (urlAt : Nat → String) :
    0 < wait_quite_a_bit ∧
    wait_quite_a_bit = 30856775814913673000 / 70 ∧
    await_download_completion marker none =
      await_download_completion marker (some wait_quite_a_bit) ∧
    await_only_one_window pw none w =
      await_only_one_window pw (some wait_quite_a_bit) w ∧
    (webDriverWait pred t i = WaitResult.timedOut ∨
      ∃ k, webDriverWait pred t i = WaitResult.success k) ∧
    (await_results_page urlAt = WaitResult.timedOut ∨
      ∃ k, await_results_page urlAt = WaitResult.success k) := by
  refine ⟨by norm_num [wait_quite_a_bit], rfl, rfl, rfl, ?_, ?_⟩
  · cases h : webDriverWait pred t i with
    | success k => exact Or.inr ⟨k, rfl⟩
    | timedOut => exact Or.inl rfl
  · cases h : await_results_page urlAt with
    | success k => exact Or.inr ⟨k, rfl⟩
    | timedOut => exact Or.inl rfl


/-- A poll on a condition that never holds always times out. -/
theorem waitFrom_const_false : ∀ (fuel k : Nat),
    waitFrom (fun _ => false) fuel k = WaitResult.timedOut := by
  intro fuel
  induction fuel with
  | zero => intro k; rfl
  | succ n ih => intro k; simpa [waitFrom] using ih (k + 1)

/-- A `WebDriverWait` on a condition that never holds always times out. -/
theorem webDriverWait_const_false (t i : ℚ) :
    webDriverWait (fun _ => false) t i = WaitResult.timedOut :=
  waitFrom_const_false _ _

/-- A `WebDriverWait` whose condition holds at the first check succeeds at
step 0 (the first check happens with no initial delay). -/
theorem webDriverWait_start_true (pred : Nat → Bool) (t i : ℚ) (h : pred 0 = true) :
    webDriverWait pred t i = WaitResult.success 0 := by
  unfold webDriverWait
  have hp : pollSteps t i =
      (let q := t / i; (q.num.toNat + q.den - 1) / q.den) + 1 := rfl
  rw [hp]
  simp [waitFrom, h]

/-- A web element (opaque beyond an identifying name). -/
structure Elem where
  name : String
deriving DecidableEq, Repr

/-- The browser DOM as an oracle for the element lookups the code performs:
`find_element_by_id` on the driver, a parent step (`find_element_by_xpath("..")`)
and an id lookup scoped under a parent element. -/
structure Dom where
  byId : String → Option Elem
  parentOf : Elem → Elem
  childById : Elem → String → Option Elem

/-- The fixed band table `RequestForm.band_to_idx`, in Python dict insertion
order (which is also the iteration order of `.keys()`). -/
def band_to_idx : List (String × Nat) :=
  [("HIGAL_BLUE", 4047), ("HIGAL_RED", 4051), ("HIGAL_PSW", 4050),
   ("HIGAL_PMW", 4049), ("HIGAL_PLW", 4048)]

/-- Decimal rendering of a rational, matching Python `str` on the integral
values the code actually formats. -/
def ratStr (q : ℚ) : String :=
  if q.den = 1 then toString q.num else toString q.num ++ "/" ++ toString q.den

/-- Model of `RequestForm.get_downloader(band)`: look the band up in
`band_to_idx` (a `KeyError` if absent), find `ckHideImg_{idx}`, go to its
parent, and find the `mapDownload` element under it; element-lookup failures
raise `NoSuchElementException`.  The `setattr` of the found element onto the
instance is an attribute write with no effect on the claims and is omitted. -/
def get_downloader (dom : Dom) (band : String) : Except PyExc Elem :=
  match band_to_idx.lookup band with
  | none => Except.error (PyExc.keyError band)
  | some idx =>
    let hideimg_id := "ckHideImg_" ++ toString idx
    match dom.byId hideimg_id with
    | none => Except.error (PyExc.noSuchElement hideimg_id)
    | some hide_img =>
      match dom.childById (dom.parentOf hide_img) "mapDownload" with
      | none => Except.error (PyExc.noSuchElement "mapDownload")
      | some download => Except.ok download

/-- The `test_id` local of `download_fits`: the id waited for. -/
def test_id : String := "mapDownload"

/-- The names of all known bands, in iteration order (`band_to_idx.keys()`). -/
def default_bands : List String := band_to_idx.map Prod.fst

/-- The band list `download_fits` iterates: `bands or self.band_to_idx.keys()`
(Python truthiness: `None` and the empty list both fall back to all bands). -/
def effective_bands (bands : Option (List String)) : List String :=
  match bands with
  | none => default_bands
  | some l => if l.isEmpty then default_bands else l

/-- The `for band in bands` loop body of `download_fits`: resolve each band
via `get_downloader` and click it; an unhandled exception aborts the loop.
Returns the bands clicked so far and the outcome. -/
def clickLoop (dom : Dom) : List String → List String → List String × PyOutcome
  | [], clicked => (clicked, PyOutcome.ok)
  | b :: rest, clicked =>
    match get_downloader dom b with
    | Except.error e => (clicked, PyOutcome.raised e)
    | Except.ok _ => clickLoop dom rest (clicked ++ [b])

/-- Result of `download_fits`: emitted log messages, the bands whose download
control was clicked, and the Python outcome (`ok` models returning `None`). -/
structure DfResult where
  logs : List LogMsg
  clicks : List String
  outcome : PyOutcome
deriving DecidableEq, Repr

/-- The error message logged by `download_fits` on a wait timeout, from the
format string `'timeout (>{} s) for the `{}` element to load on [{}]'`. -/
def dfTimeoutMsg (timeout : ℚ) (url : String) : String :=
  "timeout (>" ++ ratStr timeout ++ " s) for the `" ++ test_id ++
    "` element to load on [" ++ url ++ "]"

/-- Model of `RequestForm.download_fits(bands=None, timeout=60, interval=0.5)`.
`presence k` tells whether an element with id `mapDownload` is present at poll
step `k`; `url` is `self.current_url`.  On a wait timeout the function logs an
error and returns `None`; otherwise it clicks each requested band in order. -/
def download_fits (dom : Dom) (presence : Nat → Bool) (url : String)
    (bands : Option (List String)) (timeout interval : ℚ) : DfResult :=
  match webDriverWait presence timeout interval with
  | WaitResult.timedOut =>
      DfResult.mk
        [LogMsg.info "Waiting for the clickable elements to show up...",
         LogMsg.error (dfTimeoutMsg timeout url)]
        [] PyOutcome.ok
  | WaitResult.success _ =>
      DfResult.mk
        [LogMsg.info "Waiting for the clickable elements to show up...",
         LogMsg.info "Downloading the FITS files."]
        (clickLoop dom (effective_bands bands) []).1
        (clickLoop dom (effective_bands bands) []).2

/-- If every band in the list resolves, the click loop clicks them all. -/
theorem clickLoop_all_ok (dom : Dom) :
    ∀ (bs acc : List String),
      (∀ g ∈ bs, ∃ el, get_downloader dom g = Except.ok el) →
      clickLoop dom bs acc = (acc ++ bs, PyOutcome.ok) := by
  intro bs
  induction bs with
  | nil => intro acc _; simp [clickLoop]
  | cons b rest ih =>
      intro acc h
      obtain ⟨el, hel⟩ := h b (by simp)
      simp only [clickLoop, hel, List.append_eq]
      rw [ih (acc ++ [b]) (fun g hg => h g (by simp [hg]))]
      simp

/-- If the bands before `b` resolve and `b` fails with `e`, the click loop
clicks exactly the earlier bands and aborts with `e`. -/
theorem clickLoop_fail (dom : Dom) (b : String) (e : PyExc)
    (hb : get_downloader dom b = Except.error e) :
    ∀ (pre post acc : List String),
      (∀ g ∈ pre, ∃ el, get_downloader dom g = Except.ok el) →
      clickLoop dom (pre ++ b :: post) acc = (acc ++ pre, PyOutcome.raised e) := by
  intro pre
  induction pre with
  | nil => intro post acc _; simp [clickLoop, hb]
  | cons g rest ih =>
      intro post acc h
      obtain ⟨el, hel⟩ := h g (by simp)
      simp only [List.cons_append, clickLoop, hel, List.append_eq]
      rw [ih post (acc ++ [g]) (fun x hx => h x (by simp [hx]))]
      simp

/-- DOM in which only the `HIGAL_RED` band control (`ckHideImg_4051`) is
missing; every other id resolves. -/
def domC2 : Dom :=
  Dom.mk
    (fun s => if s == "ckHideImg_4051" then none else some (Elem.mk s))
    (fun el => Elem.mk ("parent_" ++ el.name))
    (fun _ cid => some (Elem.mk cid))

/-- C2 is false on the code: with only the `HIGAL_RED` control missing,
`download_fits` clicks `HIGAL_BLUE`, then the resolution failure for
`HIGAL_RED` raises and aborts the batch — `HIGAL_PSW`, `HIGAL_PMW` and
`HIGAL_PLW` are never attempted and no per-band error report is collected,
refuting the claim that the remaining bands are still attempted. -/
theorem C2_counterexample :
    download_fits domC2 (fun _ => true) "http://tools.asdc.asi.it/HiGALSearch"
        none 60 (1 / 2) =
      DfResult.mk
        [LogMsg.info "Waiting for the clickable elements to show up...",
         LogMsg.info "Downloading the FITS files."]
        ["HIGAL_BLUE"]
        (PyOutcome.raised (PyExc.noSuchElement "ckHideImg_4051")) ∧
    "HIGAL_PSW" ∉ (download_fits domC2 (fun _ => true)
      "http://tools.asdc.asi.it/HiGALSearch" none 60 (1 / 2)).clicks := by
  have hw := webDriverWait_start_true (fun _ => true) 60 (1 / 2) rfl
  have h1 : download_fits domC2 (fun _ => true) "http://tools.asdc.asi.it/HiGALSearch"
      none 60 (1 / 2) =
      DfResult.mk
        [LogMsg.info "Waiting for the clickable elements to show up...",
         LogMsg.info "Downloading the FITS files."]
        ["HIGAL_BLUE"]
        (PyOutcome.raised (PyExc.noSuchElement "ckHideImg_4051")) := by
    unfold download_fits
    rw [hw]
    rfl
  exact ⟨h1, by rw [h1]; decide⟩

/-- C2 amended: when one band of the requested list fails to resolve, the
bands before it are clicked, the failure is raised as an exception that
aborts the remaining bands, and no collected per-band error report is
produced (the click list holds exactly the bands activated before the
failure). -/
theorem C2_band_failure_aborts (dom : Dom) (presence : Nat → Bool) (url : String)
    (pre post : List String) (b : String) (timeout interval : ℚ) (e : PyExc) (k : Nat)
    (hw : webDriverWait presence timeout interval = WaitResult.success k)
    (hpre : ∀ g ∈ pre, ∃ el, get_downloader dom g = Except.ok el)
    (hb : get_downloader dom b = Except.error e) :
    download_fits dom presence url (some (pre ++ b :: post)) timeout interval =
      DfResult.mk
        [LogMsg.info "Waiting for the clickable elements to show up...",
         LogMsg.info "Downloading the FITS files."]
        pre (PyOutcome.raised e) := by
  have hbs : effective_bands (some (pre ++ b :: post)) = pre ++ b :: post := by
    cases pre <;> rfl
  unfold download_fits
  rw [hw, hbs, clickLoop_fail dom b e hb pre post [] hpre]
  rfl

/-- Witness for C2 amended, at `domC2` with the band list
`[HIGAL_BLUE, HIGAL_RED, HIGAL_PSW]`. -/
theorem C2_band_failure_aborts_witness :
    download_fits domC2 (fun _ => true) "u"
      (some (["HIGAL_BLUE"] ++ "HIGAL_RED" :: ["HIGAL_PSW"])) 60 (1 / 2) =
      DfResult.mk
        [LogMsg.info "Waiting for the clickable elements to show up...",
         LogMsg.info "Downloading the FITS files."]
        ["HIGAL_BLUE"]
        (PyOutcome.raised (PyExc.noSuchElement "ckHideImg_4051")) :=
  C2_band_failure_aborts domC2 (fun _ => true) "u" ["HIGAL_BLUE"] ["HIGAL_PSW"]
    "HIGAL_RED" 60 (1 / 2) (PyExc.noSuchElement "ckHideImg_4051") 0
    (webDriverWait_start_true (fun _ => true) 60 (1 / 2) rfl)
    (by intro g hg
        simp only [List.mem_singleton] at hg
        exact ⟨Elem.mk "mapDownload", by rw [hg]; rfl⟩)
    (by rfl)

/-- C5: if the initial wait for the `mapDownload` control times out,
`download_fits` logs an error naming the expected control id (`test_id`) and
the timeout used, clicks no band, and returns normally. -/
theorem C5_timeout_aborts (dom : Dom) (presence : Nat → Bool) (url : String)
    (bands : Option (List String)) (timeout interval : ℚ)
    (ht : webDriverWait presence timeout interval = WaitResult.timedOut) :
    download_fits dom presence url bands timeout interval =
      DfResult.mk
        [LogMsg.info "Waiting for the clickable elements to show up...",
         LogMsg.error ("timeout (>" ++ ratStr timeout ++ " s) for the `" ++
           test_id ++ "` element to load on [" ++ url ++ "]")]
        [] PyOutcome.ok := by
  unfold download_fits
  rw [ht]
  rfl

/-- Witness for C5 with a control that never appears within the 60-second
default timeout. -/
theorem C5_timeout_aborts_witness :
    webDriverWait (fun _ => false) 60 (1 / 2) = WaitResult.timedOut ∧
    download_fits (Dom.mk (fun _ => none) (fun el => el) (fun _ _ => none))
      (fun _ => false) "http://tools.asdc.asi.it/HiGALSearch" none 60 (1 / 2) =
      DfResult.mk
        [LogMsg.info "Waiting for the clickable elements to show up...",
         LogMsg.error ("timeout (>" ++ ratStr 60 ++ " s) for the `" ++
           test_id ++ "` element to load on [http://tools.asdc.asi.it/HiGALSearch]")]
        [] PyOutcome.ok :=
  ⟨webDriverWait_const_false 60 (1 / 2),
   C5_timeout_aborts (Dom.mk (fun _ => none) (fun el => el) (fun _ _ => none))
     (fun _ => false) "http://tools.asdc.asi.it/HiGALSearch" none 60 (1 / 2)
     (webDriverWait_const_false 60 (1 / 2))⟩

/-- C10: `download_fits` returns `None` with no exception both when the
control wait times out and when every requested band resolves successfully —
the caller cannot distinguish the two paths by return value or exception. -/
theorem C10_uniform_return (dom : Dom) (presence : Nat → Bool) (url : String)
    (bands : Option (List String)) (timeout interval : ℚ)
    (h : webDriverWait presence timeout interval = WaitResult.timedOut ∨
         ∀ g ∈ effective_bands bands, ∃ el, get_downloader dom g = Except.ok el) :
    (download_fits dom presence url bands timeout interval).outcome = PyOutcome.ok := by
  cases h with
  | inl ht => unfold download_fits; rw [ht]
  | inr hall =>
      unfold download_fits
      cases hw : webDriverWait presence timeout interval with
      | timedOut => rfl
      | success k =>
          simp only
          rw [clickLoop_all_ok dom (effective_bands bands) [] hall]

/-- Witness for C10 on the timeout path. -/
theorem C10_uniform_return_witness :
    (download_fits (Dom.mk (fun _ => none) (fun el => el) (fun _ _ => none))
      (fun _ => false) "u" none 60 (1 / 2)).outcome = PyOutcome.ok :=
  C10_uniform_return (Dom.mk (fun _ => none) (fun el => el) (fun _ _ => none))
    (fun _ => false) "u" none 60 (1 / 2) (Or.inl (webDriverWait_const_false 60 (1 / 2)))

/-- Result of `set_coordsys`: the id of the checkbox clicked (if any), the
emitted log messages, and the Python outcome. -/
structure CsResult where
  clicked : Option String
  logs : List LogMsg
  outcome : PyOutcome
deriving DecidableEq, Repr

/-- The `frame_to_chbox_name` dict of `RequestForm.set_coordsys`. -/
def frame_to_chbox_name : List (String × String) :=
  [("galactic", "coordsTypeLB"), ("fk5", "coordsTypeRADEC")]

/-- Model of `RequestForm.set_coordsys(skcd)` applied to a SkyCoord whose
frame name is `frame`: the dict lookup raises `KeyError(frame)` for any frame
other than the two supported ones (before anything is logged or clicked);
otherwise the corresponding checkbox is located and clicked. -/
def set_coordsys (dom : Dom) (frame : String) : CsResult :=
  match frame_to_chbox_name.lookup frame with
  | none => CsResult.mk none [] (PyOutcome.raised (PyExc.keyError frame))
  | some chbox_id =>
    match dom.byId chbox_id with
    | none =>
        CsResult.mk none
          [LogMsg.info ("Setting the coordinate system to " ++ frame)]
          (PyOutcome.raised (PyExc.noSuchElement chbox_id))
    | some _ =>
        CsResult.mk (some chbox_id)
          [LogMsg.info ("Setting the coordinate system to " ++ frame)]
          PyOutcome.ok

/-- C8: the `galactic` frame clicks the `coordsTypeLB` control, the `fk5`
frame clicks the distinct `coordsTypeRADEC` control, and any other frame name
fails with a `KeyError` naming the unsupported frame, clicking nothing. -/
theorem C8_coordsys_frames (dom : Dom) (f : String) (e1 e2 : Elem)
    (h1 : dom.byId "coordsTypeLB" = some e1)
    (h2 : dom.byId "coordsTypeRADEC" = some e2)
    (hf1 : f ≠ "galactic") (hf2 : f ≠ "fk5") :
    (set_coordsys dom "galactic").clicked = some "coordsTypeLB" ∧
    (set_coordsys dom "fk5").clicked = some "coordsTypeRADEC" ∧
    ("coordsTypeLB" : String) ≠ "coordsTypeRADEC" ∧
    set_coordsys dom f = CsResult.mk none [] (PyOutcome.raised (PyExc.keyError f)) := by
  refine ⟨?_, ?_, by decide, ?_⟩
  · have hl : frame_to_chbox_name.lookup "galactic" = some "coordsTypeLB" := rfl
    unfold set_coordsys
    simp only [hl, h1]
  · have hl : frame_to_chbox_name.lookup "fk5" = some "coordsTypeRADEC" := rfl
    unfold set_coordsys
    simp only [hl, h2]
  · have hl : frame_to_chbox_name.lookup f = none := by
      have hg : (f == "galactic") = false := beq_eq_false_iff_ne.mpr hf1
      have hk : (f == "fk5") = false := beq_eq_false_iff_ne.mpr hf2
      simp [frame_to_chbox_name, List.lookup, hg, hk]
    unfold set_coordsys
    simp only [hl]

/-- Witness for C8: a DOM holding every id, and the unsupported frame `icrs`. -/
theorem C8_coordsys_frames_witness :
    (set_coordsys (Dom.mk (fun s => some (Elem.mk s)) (fun el => el)
        (fun _ _ => none)) "galactic").clicked = some "coordsTypeLB" ∧
    (set_coordsys (Dom.mk (fun s => some (Elem.mk s)) (fun el => el)
        (fun _ _ => none)) "fk5").clicked = some "coordsTypeRADEC" ∧
    ("coordsTypeLB" : String) ≠ "coordsTypeRADEC" ∧
    set_coordsys (Dom.mk (fun s => some (Elem.mk s)) (fun el => el)
        (fun _ _ => none)) "icrs" =
      CsResult.mk none [] (PyOutcome.raised (PyExc.keyError "icrs")) :=
  C8_coordsys_frames (Dom.mk (fun s => some (Elem.mk s)) (fun el => el) (fun _ _ => none))
    "icrs" (Elem.mk "coordsTypeLB") (Elem.mk "coordsTypeRADEC")
    rfl rfl (by decide) (by decide)

/-- A radius argument of `set_radius` as the Python code type-checks it:
either a bare number (not an `astropy` `Quantity`) with value `v`, or a
`Quantity` of value `v` in a unit worth `unit_in_arcmin` arc-minutes.  The
`astropy` conversion `radius.to(u.arcmin).value` is modelled by multiplying
the value by the unit's size in arc-minutes. -/
inductive PyRadius where
  | bare (v : ℚ)
  | quantity (v : ℚ) (unit_in_arcmin : ℚ)
deriving DecidableEq, Repr

/-- Result of `set_radius`: emitted log messages and the arc-minute value
written into the `radiusInput` form field. -/
structure RadResult where
  logs : List LogMsg
  arcmin : ℚ
deriving DecidableEq, Repr

/-- Model of `RequestForm.set_radius(radius)`: a bare number triggers the
units warning and is multiplied by `u.arcmin` (so its value is used as
arc-minutes unchanged); a `Quantity` is converted to arc-minutes silently. -/
def set_radius : PyRadius → RadResult
  | PyRadius.bare v =>
      RadResult.mk
        [LogMsg.warning "radius doesn\x27t have units, assiming arcminutes!"] v
  | PyRadius.quantity v f => RadResult.mk [] (v * f)

/-- C9: a bare (unitless) radius is interpreted as that many arc-minutes and
a warning is recorded; a radius with units is converted to arc-minutes with
no warning recorded. -/
theorem C9_radius_units (v f : ℚ) :
    set_radius (PyRadius.bare v) =
      RadResult.mk
        [LogMsg.warning "radius doesn\x27t have units, assiming arcminutes!"] v ∧
    (set_radius (PyRadius.quantity v f)).arcmin = v * f ∧
    (set_radius (PyRadius.quantity v f)).logs = [] :=
  ⟨rfl, rfl, rfl⟩

/-- Shell-style glob matching on character lists, as `glob.glob` applies the
pattern to each directory entry: a star matches any run of characters (try
the rest of the pattern against every suffix), a question mark matches
exactly one character, any other pattern character matches itself.
(The bracket character classes of `fnmatch` are unused by the code and out
of scope here.) -/
def globMatchAux : List Char → List Char → Bool
  | [], s => s.isEmpty
  | '*' :: ps, s => s.tails.any fun t => globMatchAux ps t
  | _ :: _, [] => false
  | c :: ps, d :: ds => (c == '?' || c == d) && globMatchAux ps ds

/-- Whether a file name matches a glob pattern. -/
def globMatch (pat s : String) : Bool := globMatchAux pat.toList s.toList

/-- The contents of the two directories `fix_download_loc` works with:
the names in `dir_in` (the browser download directory) and in `dir_out`
(the destination). -/
structure MigState where
  src : List String
  dst : List String
deriving DecidableEq, Repr

/-- Environment of a `fix_download_loc` run: the open-window count at each
settle-poll step, the `.part`-marker presence history of each file, and
whether `shutil.move` succeeds on each file. -/
structure MigEnv where
  windows : Nat → Nat
  markerAt : String → Nat → Bool
  moveOk : String → Bool

/-- Effect of a successful `shutil.move(f, dir_out)`: the file leaves the
source directory and appears in the destination (overwriting a same-named
file if present). -/
def applyMove (f : String) (st : MigState) : MigState :=
  MigState.mk (st.src.erase f) (st.dst.insert f)

/-- Events of a `fix_download_loc` run, in order: the window-settle readiness
check, the one-shot glob enumeration, and the per-file completion wait and
move. -/
inductive MigEvent where
  | settle
  | enumerate
  | awaitFile (f : String)
  | moveFile (f : String)
deriving DecidableEq, Repr

/-- Result of `fix_download_loc`: final directory contents, the event trace,
and the Python outcome (`ok` models returning `None`; the code returns no
value). -/
structure MigResult where
  st : MigState
  trace : List MigEvent
  outcome : PyOutcome
deriving DecidableEq, Repr

/-- The `for fits_file in glob.glob(...)` loop of `fix_download_loc`: for
each file of the (already-taken) snapshot, wait for download completion and
move it; an exception from either step aborts the loop. -/
def moveLoop (env : MigEnv) : List String → MigState → List MigEvent → MigResult
  | [], st, tr => MigResult.mk st tr PyOutcome.ok
  | f :: rest, st, tr =>
    match (await_download_completion (env.markerAt f) none).outcome with
    | PyOutcome.raised e =>
        MigResult.mk st (tr ++ [MigEvent.awaitFile f]) (PyOutcome.raised e)
    | PyOutcome.ok =>
        if env.moveOk f then
          moveLoop env rest (applyMove f st)
            (tr ++ [MigEvent.awaitFile f, MigEvent.moveFile f])
        else
          MigResult.mk st (tr ++ [MigEvent.awaitFile f])
            (PyOutcome.raised (PyExc.moveError f))

/-- The one-shot enumeration `glob.glob(os.path.join(dir_in, globber))`: the
files in `dir_in` matching the pattern, at the moment of invocation. -/
def matchedSnapshot (globber : String) (st : MigState) : List String :=
  st.src.filter fun f => globMatch globber f

/-- Model of `RequestForm.fix_download_loc(dir_in, dir_out, globber="*.fits",
lay_low=True)`.  With `lay_low`, first run `_await_only_one_window()` (its
timeout exception propagates); then enumerate the matching files once and
move each after waiting for its completion.  `late` holds files that appear
in `dir_in` after the enumeration: they are part of the directory for the
rest of the run but are not in the snapshot the loop iterates. -/
def fix_download_loc (env : MigEnv) (globber : String) (layLow : Bool)
    (st : MigState) (late : List String) : MigResult :=
  if layLow then
    match (await_only_one_window 5 none env.windows).2 with
    | WaitResult.timedOut =>
        MigResult.mk st [MigEvent.settle] (PyOutcome.raised PyExc.timeoutExc)
    | WaitResult.success _ =>
        moveLoop env (matchedSnapshot globber st)
          (MigState.mk (st.src ++ late) st.dst)
          [MigEvent.settle, MigEvent.enumerate]
  else
    moveLoop env (matchedSnapshot globber st)
      (MigState.mk (st.src ++ late) st.dst)
      [MigEvent.enumerate]

/-- The move loop only ever appends to the trace it is given. -/
theorem moveLoop_trace_extends (env : MigEnv) :
    ∀ (files : List String) (st : MigState) (tr : List MigEvent),
      ∃ ext, (moveLoop env files st tr).trace = tr ++ ext := by
  intro files
  induction files with
  | nil => intro st tr; exact ⟨[], by simp [moveLoop]⟩
  | cons f rest ih =>
      intro st tr
      cases ho : (await_download_completion (env.markerAt f) none).outcome with
      | raised e => exact ⟨[MigEvent.awaitFile f], by simp [moveLoop, ho]⟩
      | ok =>
          by_cases hm : env.moveOk f
          · obtain ⟨ext, hext⟩ :=
              ih (applyMove f st) (tr ++ [MigEvent.awaitFile f, MigEvent.moveFile f])
            exact ⟨[MigEvent.awaitFile f, MigEvent.moveFile f] ++ ext,
              by simp [moveLoop, ho, hm, hext]⟩
          · exact ⟨[MigEvent.awaitFile f], by simp [moveLoop, ho, hm]⟩

/-- Every event in the loop result is either inherited from the initial trace
or a per-file event for one of the looped files. -/
theorem moveLoop_trace_events (env : MigEnv) :
    ∀ (files : List String) (st : MigState) (tr : List MigEvent) (e : MigEvent),
      e ∈ (moveLoop env files st tr).trace →
      e ∈ tr ∨ ∃ f ∈ files, e = MigEvent.awaitFile f ∨ e = MigEvent.moveFile f := by
  intro files
  induction files with
  | nil => intro st tr e he; exact Or.inl (by simpa [moveLoop] using he)
  | cons f rest ih =>
      intro st tr e he
      cases ho : (await_download_completion (env.markerAt f) none).outcome with
      | raised ex =>
          rw [show moveLoop env (f :: rest) st tr =
              MigResult.mk st (tr ++ [MigEvent.awaitFile f]) (PyOutcome.raised ex) by
            simp [moveLoop, ho]] at he
          simp only [List.mem_append, List.mem_singleton] at he
          rcases he with h | h
          · exact Or.inl h
          · exact Or.inr ⟨f, by simp, Or.inl h⟩
      | ok =>
          by_cases hm : env.moveOk f
          · rw [show moveLoop env (f :: rest) st tr =
                moveLoop env rest (applyMove f st)
                  (tr ++ [MigEvent.awaitFile f, MigEvent.moveFile f]) by
              simp [moveLoop, ho, hm]] at he
            rcases ih (applyMove f st)
                (tr ++ [MigEvent.awaitFile f, MigEvent.moveFile f]) e he with h | ⟨g, hg, hor⟩
            · simp only [List.mem_append, List.mem_cons, List.mem_singleton,
                List.not_mem_nil, or_false] at h
              rcases h with h | h | h
              · exact Or.inl h
              · exact Or.inr ⟨f, by simp, Or.inl h⟩
              · exact Or.inr ⟨f, by simp, Or.inr h⟩
            · exact Or.inr ⟨g, by simp [hg], hor⟩
          · rw [show moveLoop env (f :: rest) st tr =
                MigResult.mk st (tr ++ [MigEvent.awaitFile f])
                  (PyOutcome.raised (PyExc.moveError f)) by
              simp [moveLoop, ho, hm]] at he
            simp only [List.mem_append, List.mem_singleton] at he
            rcases he with h | h
            · exact Or.inl h
            · exact Or.inr ⟨f, by simp, Or.inl h⟩

/-- A file kept out of the loop stays in the source directory. -/
theorem moveLoop_src_stable (env : MigEnv) :
    ∀ (files : List String) (st : MigState) (tr : List MigEvent) (f : String),
      f ∉ files → f ∈ st.src → f ∈ (moveLoop env files st tr).st.src := by
  intro files
  induction files with
  | nil => intro st tr f _ hs; simpa [moveLoop] using hs
  | cons g rest ih =>
      intro st tr f hf hs
      have hfg : f ≠ g := fun h => hf (by simp [h])
      have hfr : f ∉ rest := fun h => hf (by simp [h])
      cases ho : (await_download_completion (env.markerAt g) none).outcome with
      | raised ex => simpa [moveLoop, ho] using hs
      | ok =>
          by_cases hm : env.moveOk g
          · have : f ∈ (applyMove g st).src := by
              simpa [applyMove, List.mem_erase_of_ne hfg] using hs
            simpa [moveLoop, ho, hm] using
              ih (applyMove g st) (tr ++ [MigEvent.awaitFile g, MigEvent.moveFile g]) f hfr this
          · simpa [moveLoop, ho, hm] using hs

/-- A file kept out of the loop and absent from the destination stays absent. -/
theorem moveLoop_dst_stable (env : MigEnv) :
    ∀ (files : List String) (st : MigState) (tr : List MigEvent) (f : String),
      f ∉ files → f ∉ st.dst → f ∉ (moveLoop env files st tr).st.dst := by
  intro files
  induction files with
  | nil => intro st tr f _ hs; simpa [moveLoop] using hs
  | cons g rest ih =>
      intro st tr f hf hs
      have hfg : f ≠ g := fun h => hf (by simp [h])
      have hfr : f ∉ rest := fun h => hf (by simp [h])
      cases ho : (await_download_completion (env.markerAt g) none).outcome with
      | raised ex => simpa [moveLoop, ho] using hs
      | ok =>
          by_cases hm : env.moveOk g
          · have : f ∉ (applyMove g st).dst := by
              simp only [applyMove, List.mem_insert_iff]
              push_neg
              exact ⟨hfg, hs⟩
            simpa [moveLoop, ho, hm] using
              ih (applyMove g st) (tr ++ [MigEvent.awaitFile g, MigEvent.moveFile g]) f hfr this
          · simpa [moveLoop, ho, hm] using hs

/-- When every looped file completes and moves successfully, each of them
gets a move event in the trace. -/
theorem moveLoop_all_ok_moves (env : MigEnv) :
    ∀ (files : List String) (st : MigState) (tr : List MigEvent),
      (∀ g ∈ files, (await_download_completion (env.markerAt g) none).outcome = PyOutcome.ok ∧
        env.moveOk g = true) →
      ∀ f ∈ files, MigEvent.moveFile f ∈ (moveLoop env files st tr).trace := by
  intro files
  induction files with
  | nil => intro st tr _ f hf; exact absurd hf (by simp)
  | cons g rest ih =>
      intro st tr h f hf
      obtain ⟨hg, hgm⟩ := h g (by simp)
      rw [show moveLoop env (g :: rest) st tr =
          moveLoop env rest (applyMove g st)
            (tr ++ [MigEvent.awaitFile g, MigEvent.moveFile g]) by
        simp [moveLoop, hg, hgm]]
      rcases List.mem_cons.mp hf with rfl | hfr
      · obtain ⟨ext, hext⟩ := moveLoop_trace_extends env rest (applyMove f st)
          (tr ++ [MigEvent.awaitFile f, MigEvent.moveFile f])
        rw [hext]
        simp
      · exact ih (applyMove g st) (tr ++ [MigEvent.awaitFile g, MigEvent.moveFile g])
          (fun y hy => h y (by simp [hy])) f hfr

/-- When the files before `x` all complete and move but `x`'s move fails, the
loop moves exactly the earlier files, logs their events plus `x`'s completion
wait, and aborts raising the move error for `x`; the files after `x` are
never touched. -/
theorem moveLoop_fail (env : MigEnv) (x : String)
    (hx : (await_download_completion (env.markerAt x) none).outcome = PyOutcome.ok)
    (hxm : env.moveOk x = false) :
    ∀ (pre post : List String) (st : MigState) (tr : List MigEvent),
      (∀ g ∈ pre, (await_download_completion (env.markerAt g) none).outcome = PyOutcome.ok ∧
        env.moveOk g = true) →
      moveLoop env (pre ++ x :: post) st tr =
        MigResult.mk (pre.foldl (fun s g => applyMove g s) st)
          (tr ++ pre.flatMap (fun g => [MigEvent.awaitFile g, MigEvent.moveFile g]) ++
            [MigEvent.awaitFile x])
          (PyOutcome.raised (PyExc.moveError x)) := by
  intro pre
  induction pre with
  | nil => intro post st tr _; simp [moveLoop, hx, hxm]
  | cons g rest ih =>
      intro post st tr h
      obtain ⟨hg, hgm⟩ := h g (by simp)
      rw [show moveLoop env ((g :: rest) ++ x :: post) st tr =
          moveLoop env (rest ++ x :: post) (applyMove g st)
            (tr ++ [MigEvent.awaitFile g, MigEvent.moveFile g]) by
        simp [moveLoop, hg, hgm]]
      rw [ih post (applyMove g st) (tr ++ [MigEvent.awaitFile g, MigEvent.moveFile g])
        (fun y hy => h y (by simp [hy]))]
      simp

/-- A file already in the destination stays there through a fold of moves. -/
theorem applyMoves_dst_mono :
    ∀ (pre : List String) (st : MigState) (f : String),
      f ∈ st.dst → f ∈ (pre.foldl (fun s g => applyMove g s) st).dst := by
  intro pre
  induction pre with
  | nil => intro st f h; simpa using h
  | cons g rest ih =>
      intro st f h
      simp only [List.foldl_cons]
      exact ih (applyMove g st) f (List.mem_insert_of_mem h)

/-- Every file in the moved prefix ends up in the destination directory. -/
theorem applyMoves_dst_mem :
    ∀ (pre : List String) (st : MigState) (f : String),
      f ∈ pre → f ∈ (pre.foldl (fun s g => applyMove g s) st).dst := by
  intro pre
  induction pre with
  | nil => intro st f h; exact absurd h (by simp)
  | cons g rest ih =>
      intro st f h
      rcases List.mem_cons.mp h with rfl | hr
      · simp only [List.foldl_cons]
        exact applyMoves_dst_mono rest (applyMove f st) f (List.mem_insert_self _ _)
      · simp only [List.foldl_cons]
        exact ih (applyMove g st) f hr

/-- As long as the window-settle wait does not time out (or is skipped), a
`fix_download_loc` run is the move loop over the one-shot snapshot, started
from a trace holding only settle/enumerate events. -/
theorem fix_eq_moveLoop (env : MigEnv) (globber : String) (layLow : Bool)
    (st : MigState) (late : List String)
    (hset : layLow = true →
      (await_only_one_window 5 none env.windows).2 ≠ WaitResult.timedOut) :
    ∃ tr0 ∈ [[MigEvent.settle, MigEvent.enumerate], [MigEvent.enumerate]],
      fix_download_loc env globber layLow st late =
        moveLoop env (matchedSnapshot globber st)
          (MigState.mk (st.src ++ late) st.dst) tr0 := by
  cases layLow with
  | false => exact ⟨[MigEvent.enumerate], by simp, rfl⟩
  | true =>
      refine ⟨[MigEvent.settle, MigEvent.enumerate], by simp, ?_⟩
      unfold fix_download_loc
      cases hs : (await_only_one_window 5 none env.windows).2 with
      | timedOut => exact absurd hs (hset rfl)
      | success j => simp

/-- C1 is false on the code: migrating `A.fits`, `B.fits`, `C.fits` where the
move of `B.fits` fails, the run raises (it returns no list of moved paths),
`A.fits` stays moved, but `C.fits` is never attempted — refuting the claim
that the remaining matched files are still attempted. -/
def envC1 : MigEnv :=
  MigEnv.mk (fun _ => 1) (fun _ _ => false) (fun f => !(f == "B.fits"))

/-- C1 counterexample run: the failure aborts the loop before `C.fits`. -/
theorem C1_counterexample :
    fix_download_loc envC1 "*.fits" false
        (MigState.mk ["A.fits", "B.fits", "C.fits"] []) [] =
      MigResult.mk (MigState.mk ["B.fits", "C.fits"] ["A.fits"])
        [MigEvent.enumerate, MigEvent.awaitFile "A.fits", MigEvent.moveFile "A.fits",
         MigEvent.awaitFile "B.fits"]
        (PyOutcome.raised (PyExc.moveError "B.fits")) ∧
    MigEvent.moveFile "C.fits" ∉ (fix_download_loc envC1 "*.fits" false
        (MigState.mk ["A.fits", "B.fits", "C.fits"] []) []).trace ∧
    "C.fits" ∉ (fix_download_loc envC1 "*.fits" false
        (MigState.mk ["A.fits", "B.fits", "C.fits"] []) []).st.dst := by
  refine ⟨by decide, by decide, by decide⟩

/-- C1 amended: `fix_download_loc` returns no list of moved paths (it returns
`None` on success); when the move of one matched file fails, the failure
surfaces as a raised exception naming that file, the files already moved stay
moved, but the remaining matched files are not attempted (the run is aborted,
not best-effort). -/
theorem C1_move_failure_aborts (env : MigEnv) (globber : String) (layLow : Bool)
    (st : MigState) (late : List String) (pre post : List String) (x : String)
    (hsnap : matchedSnapshot globber st = pre ++ x :: post)
    (hset : layLow = true →
      (await_only_one_window 5 none env.windows).2 ≠ WaitResult.timedOut)
    (hpre : ∀ g ∈ pre,
      (await_download_completion (env.markerAt g) none).outcome = PyOutcome.ok ∧
      env.moveOk g = true)
    (hx : (await_download_completion (env.markerAt x) none).outcome = PyOutcome.ok)
    (hxm : env.moveOk x = false)
    (hnd : (pre ++ x :: post).Nodup) :
    (fix_download_loc env globber layLow st late).outcome =
      PyOutcome.raised (PyExc.moveError x) ∧
    (∀ g ∈ pre, g ∈ (fix_download_loc env globber layLow st late).st.dst) ∧
    (∀ g ∈ post,
      MigEvent.awaitFile g ∉ (fix_download_loc env globber layLow st late).trace ∧
      MigEvent.moveFile g ∉ (fix_download_loc env globber layLow st late).trace) := by
  obtain ⟨tr0, htr0, heq⟩ := fix_eq_moveLoop env globber layLow st late hset
  rw [heq, hsnap, moveLoop_fail env x hx hxm pre post _ _ hpre]
  have hdisj : ∀ g ∈ post, g ∉ pre ∧ g ≠ x := by
    intro g hg
    rw [List.nodup_append] at hnd
    obtain ⟨_, hnd2, hdis⟩ := hnd
    constructor
    · intro hgp
      exact hdis hgp (by simp [hg])
    · intro hgx
      subst hgx
      exact (List.nodup_cons.mp hnd2).1 hg
  have htr0ev : ∀ g, MigEvent.awaitFile g ∉ tr0 ∧ MigEvent.moveFile g ∉ tr0 := by
    intro g
    simp only [List.mem_cons, List.not_mem_nil, or_false, List.mem_singleton] at htr0
    rcases htr0 with rfl | rfl <;> simp
  refine ⟨rfl, ?_, ?_⟩
  · intro g hg
    exact applyMoves_dst_mem pre (MigState.mk (st.src ++ late) st.dst) g hg
  · intro g hg
    obtain ⟨hgp, hgx⟩ := hdisj g hg
    constructor
    · simp only [List.mem_append, List.mem_flatMap, List.mem_cons, List.mem_singleton,
        List.not_mem_nil, or_false]
      push_neg
      refine ⟨⟨(htr0ev g).1, ?_⟩, ?_⟩
      · intro y hy
        constructor
        · intro hcon
          exact hgp (by injection hcon with h; rw [h]; exact hy)
        · intro hcon
          exact MigEvent.noConfusion hcon
      · intro hcon
        exact hgx (by injection hcon)
    · simp only [List.mem_append, List.mem_flatMap, List.mem_cons, List.mem_singleton,
        List.not_mem_nil, or_false]
      push_neg
      refine ⟨⟨(htr0ev g).2, ?_⟩, ?_⟩
      · intro y hy
        constructor
        · intro hcon
          exact MigEvent.noConfusion hcon
        · intro hcon
          exact hgp (by injection hcon with h; rw [h]; exact hy)
      · intro hcon
        exact MigEvent.noConfusion hcon

/-- Witness for C1 amended: the counterexample run, through the theorem. -/
theorem C1_move_failure_aborts_witness :
    (fix_download_loc envC1 "*.fits" false
        (MigState.mk ["A.fits", "B.fits", "C.fits"] []) []).outcome =
      PyOutcome.raised (PyExc.moveError "B.fits") ∧
    (∀ g ∈ ["A.fits"], g ∈ (fix_download_loc envC1 "*.fits" false
        (MigState.mk ["A.fits", "B.fits", "C.fits"] []) []).st.dst) ∧
    (∀ g ∈ ["C.fits"],
      MigEvent.awaitFile g ∉ (fix_download_loc envC1 "*.fits" false
        (MigState.mk ["A.fits", "B.fits", "C.fits"] []) []).trace ∧
      MigEvent.moveFile g ∉ (fix_download_loc envC1 "*.fits" false
        (MigState.mk ["A.fits", "B.fits", "C.fits"] []) []).trace) :=
  C1_move_failure_aborts envC1 "*.fits" false
    (MigState.mk ["A.fits", "B.fits", "C.fits"] []) [] ["A.fits"] ["C.fits"] "B.fits"
    (by decide)
    (by intro h; exact absurd h (by decide))
    (by decide) (by decide) (by decide) (by decide)

/-- C4: the move events of a `fix_download_loc` run only concern files of the
one-shot snapshot (files of the source directory matching the glob at
enumeration time); a file that appears in the source directory after the
enumeration is untouched (it stays in the source directory and never enters
the destination); and when every snapshot file completes and moves
successfully, every snapshot file is moved. -/
theorem C4_one_shot_snapshot (env : MigEnv) (globber : String) (layLow : Bool)
    (st : MigState) (late : List String)
    (hset : layLow = true →
      (await_only_one_window 5 none env.windows).2 ≠ WaitResult.timedOut) :
    (∀ f, MigEvent.moveFile f ∈ (fix_download_loc env globber layLow st late).trace →
      f ∈ matchedSnapshot globber st) ∧
    (∀ f, f ∈ late → f ∉ matchedSnapshot globber st → f ∉ st.dst →
      f ∈ (fix_download_loc env globber layLow st late).st.src ∧
      f ∉ (fix_download_loc env globber layLow st late).st.dst) ∧
    ((∀ g ∈ matchedSnapshot globber st,
        (await_download_completion (env.markerAt g) none).outcome = PyOutcome.ok ∧
        env.moveOk g = true) →
      ∀ f ∈ matchedSnapshot globber st,
        MigEvent.moveFile f ∈ (fix_download_loc env globber layLow st late).trace) := by
  obtain ⟨tr0, htr0, heq⟩ := fix_eq_moveLoop env globber layLow st late hset
  refine ⟨?_, ?_, ?_⟩
  · intro f hf
    rw [heq] at hf
    rcases moveLoop_trace_events env _ _ _ _ hf with h | ⟨g, hg, hor⟩
    · exfalso
      simp only [List.mem_cons, List.not_mem_nil, or_false, List.mem_singleton] at htr0
      rcases htr0 with rfl | rfl <;> simp at h
    · rcases hor with h | h
      · exact MigEvent.noConfusion h
      · injection h with h'
        exact h' ▸ hg
  · intro f hfl hfsnap hfd
    rw [heq]
    constructor
    · exact moveLoop_src_stable env _ _ _ f hfsnap (by simp [hfl])
    · exact moveLoop_dst_stable env _ _ _ f hfsnap hfd
  · intro hall f hf
    rw [heq]
    exact moveLoop_all_ok_moves env _ _ _ hall f hf

/-- Environment with one window, no `.part` markers and always-succeeding
moves, for concrete runs. -/
def envQuiet : MigEnv :=
  MigEnv.mk (fun _ => 1) (fun _ _ => false) (fun _ => true)

/-- Witness for C4: `D.fits` appears after enumeration and is untouched,
while the snapshot file `A.fits` is moved. -/
theorem C4_one_shot_snapshot_witness :
    ("D.fits" ∈ (fix_download_loc envQuiet "*.fits" false
        (MigState.mk ["A.fits", "notes.txt"] []) ["D.fits"]).st.src ∧
     "D.fits" ∉ (fix_download_loc envQuiet "*.fits" false
        (MigState.mk ["A.fits", "notes.txt"] []) ["D.fits"]).st.dst) ∧
    MigEvent.moveFile "A.fits" ∈ (fix_download_loc envQuiet "*.fits" false
        (MigState.mk ["A.fits", "notes.txt"] []) ["D.fits"]).trace := by
  have h := C4_one_shot_snapshot envQuiet "*.fits" false
    (MigState.mk ["A.fits", "notes.txt"] []) ["D.fits"]
    (by intro hcon; exact absurd hcon (by decide))
  exact ⟨h.2.1 "D.fits" (by decide) (by decide) (by decide),
    h.2.2 (by decide) "A.fits" (by decide)⟩

/-- C7: with `lay_low` true, a `fix_download_loc` run begins with the
window-settle readiness check, before the enumeration and any move; with
`lay_low` false no settle event occurs.  The settle check itself (at its
default `prewait=5`) first sleeps the 5-second grace period and then polls,
and a successful poll happens exactly when the open-window count is at
most 1. -/
theorem C7_settle_first (env : MigEnv) (globber : String) (st : MigState)
    (late : List String) (w : Nat → Nat) (pw : ℚ) (tw : Option ℚ) (k : Nat)
    (hk : (await_only_one_window pw tw w).2 = WaitResult.success k) :
    (fix_download_loc env globber true st late).trace.head? = some MigEvent.settle ∧
    MigEvent.settle ∉ (fix_download_loc env globber false st late).trace ∧
    (await_only_one_window 5 none w).1 = [SettleEvent.sleep 5, SettleEvent.poll] ∧
    w k ≤ 1 := by
  refine ⟨?_, ?_, ?_, ?_⟩
  · unfold fix_download_loc
    cases hs : (await_only_one_window 5 none env.windows).2 with
    | timedOut => simp
    | success j =>
        obtain ⟨ext, hext⟩ := moveLoop_trace_extends env (matchedSnapshot globber st)
          (MigState.mk (st.src ++ late) st.dst) [MigEvent.settle, MigEvent.enumerate]
        simp [hext]
  · intro hmem
    have heq : fix_download_loc env globber false st late =
        moveLoop env (matchedSnapshot globber st)
          (MigState.mk (st.src ++ late) st.dst) [MigEvent.enumerate] := rfl
    rw [heq] at hmem
    rcases moveLoop_trace_events env _ _ _ _ hmem with h | ⟨g, _, hor⟩
    · simp at h
    · rcases hor with h | h <;> exact MigEvent.noConfusion h
  · show (if (5 : ℚ) = 0 then [] else [SettleEvent.sleep 5]) ++ [SettleEvent.poll] = _
    norm_num
  · have hk' : waitFrom (fun j => !decide (w j > 1))
        (pollSteps (tw.getD wait_quite_a_bit) (1 / 2)) 0 = WaitResult.success k := hk
    have hp := waitFrom_success_pred (fun j => !decide (w j > 1)) _ _ _ hk'
    simp only [Bool.not_eq_true', decide_eq_false_iff_not, not_lt] at hp
    exact hp

/-- Witness for C7 with a single open window and an explicit 2-second settle
timeout. -/
theorem C7_settle_first_witness :
    (fix_download_loc envQuiet "*.fits" true (MigState.mk [] []) []).trace.head? =
      some MigEvent.settle ∧
    MigEvent.settle ∉ (fix_download_loc envQuiet "*.fits" false (MigState.mk [] []) []).trace ∧
    (await_only_one_window 5 none (fun _ => 1)).1 =
      [SettleEvent.sleep 5, SettleEvent.poll] ∧
    (1 : Nat) ≤ 1 :=
  C7_settle_first envQuiet "*.fits" (MigState.mk [] []) [] (fun _ => 1) 5 (some 2) 0
    (by unfold await_only_one_window
        exact webDriverWait_start_true (fun j => !decide ((fun _ => (1 : Nat)) j > 1))
          2 (1 / 2) (by decide))
